import Mathlib

/-!
# Verification of the pysui key-pair and address-derivation core

Shallow embedding of `src/sui/sui_crypto.py` and
`src/abstracts/client_keypair.py`. Python `bytes` values are `List Nat`
with every element below 256, Python `str` values are `List Char`, and
fallible constructors/class methods return `Except SuiError _`.

The SHA3-256 primitive (`hashlib.sha3_256`) and the curve libraries
(`nacl`, `secp256k1`) are external dependencies of the repository, not
code under review; SHA3-256 is threaded through the address functions as
an explicit function parameter, and the curve-library handle
construction (which only wraps already length-checked bytes) is treated
as total.
-/

/-- The exception kinds raised by the embedded functions.
`SuiInvalidKeyPair` and `SuiInvalidKeystringLength` come from
`sui.sui_excepts`; `NotImplementedError` and `IndexError` are Python
built-ins reachable in `keypair_from_keystring` / `from_b64`;
`BinasciiError` stands for `binascii.Error` escaping `base64.b64decode`. -/
inductive SuiError where
  | SuiInvalidKeyPair (msg : String)
  | SuiInvalidKeystringLength (len : Nat)
  | NotImplementedError
  | IndexError
  | BinasciiError
deriving DecidableEq, Repr

/-- `SignatureScheme` from `abstracts/client_keypair.py`: an `IntEnum`
with `ED25519 = 0` and `SECP256K1 = 1`. -/
inductive SignatureScheme where
  | ED25519
  | SECP256K1
deriving DecidableEq, Repr

/-- The integer value of the `IntEnum` member: `ED25519 = 0`,
`SECP256K1 = 1`. Also the single tag byte `scheme.to_bytes(1, "little")`. -/
def SignatureScheme.value : SignatureScheme → Nat
  | .ED25519 => 0
  | .SECP256K1 => 1

/-! ## Constants

The module `sui.sui_constants` is imported by `sui_crypto.py` but its
source is not among the reviewed files, so the constant values are
modelled from the spec (section 6 length table) and cross-checked
against the literals that do appear in `sui_crypto.py` (the
`from_bytes` error strings "Expect bytes len of 64" / "Expect bytes
len of 65", the slice points 32 and 33, and the docstring
"From a 88 byte keypair string"). -/

/-- Modelled from the spec: `sui.sui_constants.ED25519_PUBLICKEY_BYTES_LEN`
(spec section 6: Ed25519 pubkey 32B; forced by the slices in
`SuiKeyPairED25519.from_bytes`). -/
def ED25519_PUBLICKEY_BYTES_LEN : Nat := 32

/-- Modelled from the spec: `sui.sui_constants.ED25519_PRIVATEKEY_BYTES_LEN`
(spec section 6: Ed25519 privkey 32B). -/
def ED25519_PRIVATEKEY_BYTES_LEN : Nat := 32

/-- Modelled from the spec: `sui.sui_constants.ED25519_KEYPAIR_BYTES_LEN`,
the tag-stripped payload length accepted by
`SuiKeyPairED25519.from_bytes` (its error string says
"Expect bytes len of 64"). -/
def ED25519_KEYPAIR_BYTES_LEN : Nat := 64

/-- Modelled from the spec: `sui.sui_constants.SECP256K1_PUBLICKEY_BYTES_LEN`
(spec section 6: compressed pubkey 33B). -/
def SECP256K1_PUBLICKEY_BYTES_LEN : Nat := 33

/-- Modelled from the spec: `sui.sui_constants.SECP256K1_PRIVATEKEY_BYTES_LEN`
(spec section 6: privkey 32B). -/
def SECP256K1_PRIVATEKEY_BYTES_LEN : Nat := 32

/-- Modelled from the spec: `sui.sui_constants.SECP256K1_KEYPAIR_BYTES_LEN`,
the tag-stripped payload length accepted by
`SuiKeyPairSECP256K1.from_bytes` ("Expect bytes len of 65"). -/
def SECP256K1_KEYPAIR_BYTES_LEN : Nat := 65

/-- Modelled from the spec: `sui.sui_constants.SUI_KEYPAIR_LEN`, the
length of a base64-encoded key-pair string
(`address_from_keystring` docstring: "From a 88 byte keypair string";
base64 of 65 or 66 payload bytes is 88 characters). -/
def SUI_KEYPAIR_LEN : Nat := 88

/-- Modelled from the spec: `sui.sui_constants.SUI_ADDRESS_STRING_LEN`,
the bare (unprefixed) address length of 40 hex characters (spec
section 3: a 40-character lowercase hex string, optionally prefixed
"0x" when consumed at the matching string length). -/
def SUI_ADDRESS_STRING_LEN : Nat := 40

/-! ## Base64 codec

`base64.b64encode` / `base64.b64decode` from the Python standard
library, on the standard alphabet.  The decoder models strict decoding
of well-padded input (the only way the repository ever reaches it is
through strings produced by the encoder). -/

/-- The standard base64 alphabet: index 0..63 to character. -/
def b64EncChar (n : Nat) : Char :=
  if n < 26 then Char.ofNat (65 + n)
  else if n < 52 then Char.ofNat (97 + (n - 26))
  else if n < 62 then Char.ofNat (48 + (n - 52))
  else if n = 62 then Char.ofNat 43
  else Char.ofNat 47

/-- Inverse of the base64 alphabet: character to index 0..63. -/
def b64DecVal (c : Char) : Option Nat :=
  if 65 ≤ c.toNat ∧ c.toNat ≤ 90 then some (c.toNat - 65)
  else if 97 ≤ c.toNat ∧ c.toNat ≤ 122 then some (c.toNat - 97 + 26)
  else if 48 ≤ c.toNat ∧ c.toNat ≤ 57 then some (c.toNat - 48 + 52)
  else if c.toNat = 43 then some 62
  else if c.toNat = 47 then some 63
  else none

/-- `base64.b64encode`: three input bytes become four output characters,
with `=` padding for a final group of one or two bytes. -/
def b64encode : List Nat → List Char
  | [] => []
  | [a] => [b64EncChar (a / 4), b64EncChar (a % 4 * 16), Char.ofNat 61, Char.ofNat 61]
  | [a, b] =>
      [b64EncChar (a / 4), b64EncChar (a % 4 * 16 + b / 16), b64EncChar (b % 16 * 4),
        Char.ofNat 61]
  | a :: b :: c :: rest =>
      b64EncChar (a / 4) :: b64EncChar (a % 4 * 16 + b / 16) ::
        b64EncChar (b % 16 * 4 + c / 64) :: b64EncChar (c % 64) :: b64encode rest

/-- `base64.b64decode` on well-padded input: groups of four characters,
the last group possibly carrying one or two `=` padding characters. -/
def b64decode : List Char → Option (List Nat)
  | [] => some []
  | p :: q :: r :: s :: rest =>
      match b64DecVal p, b64DecVal q with
      | some vp, some vq =>
          if r.toNat = 61 ∧ s.toNat = 61 ∧ rest = [] then some [vp * 4 + vq / 16]
          else
            match b64DecVal r with
            | some vr =>
                if s.toNat = 61 ∧ rest = [] then
                  some [vp * 4 + vq / 16, vq % 16 * 16 + vr / 4]
                else
                  match b64DecVal s with
                  | some vs =>
                      (b64decode rest).map
                        (fun ds =>
                          (vp * 4 + vq / 16) :: (vq % 16 * 16 + vr / 4) ::
                            (vr % 4 * 64 + vs) :: ds)
                  | none => none
            | none => none
      | _, _ => none
  | _ => none

/-! ## Key primitives (`abstracts/client_keypair.py`) -/

/-- The `Key` base class: `__init__` stores the scheme and the raw byte
sequence; `scheme` and `key_bytes` are read-only properties returning the
stored fields. `PublicKey` and `PrivateKey` add no state of their own. -/
structure Key where
  scheme : SignatureScheme
  key_bytes : List Nat
deriving DecidableEq, Repr

/-- `Key.to_b64`: `base64.b64encode(self.key_bytes).decode()`. -/
def Key.to_b64 (k : Key) : List Char :=
  b64encode k.key_bytes

/-! ## Concrete key classes (`sui/sui_crypto.py`) -/

/-- `SuiPublicKeyED25519.__init__`: rejects any byte length other than
`ED25519_PUBLICKEY_BYTES_LEN`, then stores scheme and bytes.  The
`nacl.signing.VerifyKey` handle built afterwards accepts any 32-byte
input and is not modelled. -/
def SuiPublicKeyED25519.mk (indata : List Nat) : Except SuiError Key :=
  if indata.length ≠ ED25519_PUBLICKEY_BYTES_LEN then
    .error (.SuiInvalidKeyPair "Public Key expects 32 bytes")
  else .ok ⟨.ED25519, indata⟩

/-- `SuiPrivateKeyED25519.__init__`: rejects any byte length other than
`ED25519_PRIVATEKEY_BYTES_LEN`, then stores scheme and bytes. -/
def SuiPrivateKeyED25519.mk (indata : List Nat) : Except SuiError Key :=
  if indata.length ≠ ED25519_PRIVATEKEY_BYTES_LEN then
    .error (.SuiInvalidKeyPair "Private Key expects 32 bytes")
  else .ok ⟨.ED25519, indata⟩

/-- `SuiPublicKeySECP256K1.__init__`: rejects any byte length other than
`SECP256K1_PUBLICKEY_BYTES_LEN`, then stores scheme and bytes.  The
`secp256k1.PublicKey` handle is an external primitive, treated as
total on length-correct input. -/
def SuiPublicKeySECP256K1.mk (indata : List Nat) : Except SuiError Key :=
  if indata.length ≠ SECP256K1_PUBLICKEY_BYTES_LEN then
    .error (.SuiInvalidKeyPair "Public Key expects 33 bytes")
  else .ok ⟨.SECP256K1, indata⟩

/-- `SuiPrivateKeySECP256K1.__init__`: rejects any byte length other than
`SECP256K1_PRIVATEKEY_BYTES_LEN`, then stores scheme and bytes. -/
def SuiPrivateKeySECP256K1.mk (indata : List Nat) : Except SuiError Key :=
  if indata.length ≠ SECP256K1_PRIVATEKEY_BYTES_LEN then
    .error (.SuiInvalidKeyPair "Private Key expects 32 bytes")
  else .ok ⟨.SECP256K1, indata⟩

/-! ## Key pairs -/

/-- A key pair: scheme plus the two key objects (the common shape of
`SuiKeyPairED25519` and `SuiKeyPairSECP256K1`). -/
structure SuiKeyPair where
  scheme : SignatureScheme
  public_key : Key
  private_key : Key
deriving DecidableEq, Repr

/-- `SuiKeyPairED25519.__init__`: builds the private key first, then the
public key (so the first failing length check wins), with the scheme
fixed to `ED25519`. -/
def SuiKeyPairED25519.mk (pub_key_bytes priv_key_bytes : List Nat) :
    Except SuiError SuiKeyPair :=
  match SuiPrivateKeyED25519.mk priv_key_bytes with
  | .error e => .error e
  | .ok sk =>
      match SuiPublicKeyED25519.mk pub_key_bytes with
      | .error e => .error e
      | .ok pk => .ok ⟨.ED25519, pk, sk⟩

/-- `SuiKeyPairSECP256K1.__init__`: builds the public key first, then the
private key, with the scheme fixed to `SECP256K1`. -/
def SuiKeyPairSECP256K1.mk (pub_key_bytes priv_key_bytes : List Nat) :
    Except SuiError SuiKeyPair :=
  match SuiPublicKeySECP256K1.mk pub_key_bytes with
  | .error e => .error e
  | .ok pk =>
      match SuiPrivateKeySECP256K1.mk priv_key_bytes with
      | .error e => .error e
      | .ok sk => .ok ⟨.SECP256K1, pk, sk⟩

/-- `to_bytes` (identical bodies in both key-pair classes):
`scheme.to_bytes(1, "little") + public_key.key_bytes + private_key.key_bytes`. -/
def SuiKeyPair.to_bytes (kp : SuiKeyPair) : List Nat :=
  kp.scheme.value :: kp.public_key.key_bytes ++ kp.private_key.key_bytes

/-- `KeyPair.to_b64` from `abstracts/client_keypair.py`:
`base64.b64encode(self.to_bytes()).decode()`. -/
def SuiKeyPair.to_b64 (kp : SuiKeyPair) : List Char :=
  b64encode kp.to_bytes

/-- `SuiKeyPairED25519.from_bytes`: requires exactly
`ED25519_KEYPAIR_BYTES_LEN` (64) bytes — the tag-stripped payload —
then splits at offset 32. -/
def SuiKeyPairED25519.from_bytes (indata : List Nat) : Except SuiError SuiKeyPair :=
  if indata.length ≠ ED25519_KEYPAIR_BYTES_LEN then
    .error (.SuiInvalidKeyPair "Expect bytes len of 64")
  else SuiKeyPairED25519.mk (indata.take 32) (indata.drop 32)

/-- `SuiKeyPairSECP256K1.from_bytes`: requires exactly
`SECP256K1_KEYPAIR_BYTES_LEN` (65) bytes — the tag-stripped payload —
then splits at offset 33. -/
def SuiKeyPairSECP256K1.from_bytes (indata : List Nat) : Except SuiError SuiKeyPair :=
  if indata.length ≠ SECP256K1_KEYPAIR_BYTES_LEN then
    .error (.SuiInvalidKeyPair "Expect bytes len of 65")
  else SuiKeyPairSECP256K1.mk (indata.take 33) (indata.drop 33)

/-- `SuiKeyPairED25519.from_b64`: length precheck against
`SUI_KEYPAIR_LEN` before decoding, then dispatch on the first decoded
byte against `SignatureScheme.ED25519`, handing the remainder to
`SuiKeyPairED25519.from_bytes`. -/
def SuiKeyPairED25519.from_b64 (indata : List Char) : Except SuiError SuiKeyPair :=
  if indata.length ≠ SUI_KEYPAIR_LEN then
    .error (.SuiInvalidKeyPair "Expect str len of 88")
  else
    match b64decode indata with
    | none => .error .BinasciiError
    | some [] => .error .IndexError
    | some (b0 :: rest) =>
        if b0 = SignatureScheme.ED25519.value then SuiKeyPairED25519.from_bytes rest
        else .error (.SuiInvalidKeyPair "Scheme not ED25519")

/-- `SuiKeyPairSECP256K1.from_b64`: length precheck, then dispatch on the
first decoded byte against `SignatureScheme.SECP256K1` — but the source
then calls `SuiKeyPairED25519.from_bytes` on the remainder (source line
192), which this embedding reproduces verbatim. -/
def SuiKeyPairSECP256K1.from_b64 (indata : List Char) : Except SuiError SuiKeyPair :=
  if indata.length ≠ SUI_KEYPAIR_LEN then
    .error (.SuiInvalidKeyPair "Expect str len of 88")
  else
    match b64decode indata with
    | none => .error .BinasciiError
    | some [] => .error .IndexError
    | some (b0 :: rest) =>
        if b0 = SignatureScheme.SECP256K1.value then SuiKeyPairED25519.from_bytes rest
        else .error (.SuiInvalidKeyPair "Scheme not SECP256K1")

/-! ## Address type and derivation -/

/-- The hex digit characters used by `binascii.hexlify`: lowercase. -/
def hexDigit (n : Nat) : Char :=
  if n < 10 then Char.ofNat (48 + n) else Char.ofNat (87 + n)

/-- `binascii.hexlify`: each byte becomes two lowercase hex characters. -/
def hexlify (l : List Nat) : List Char :=
  l.flatMap (fun b => [hexDigit (b / 16), hexDigit (b % 16)])

/-- `SuiAddress` stores the identifier string computed by `__init__`. -/
structure SuiAddress where
  address : List Char
deriving DecidableEq, Repr

/-- `SuiAddress.__init__`: when the identifier has exactly
`SUI_ADDRESS_STRING_LEN` characters it is stored with a "0x" prefix,
otherwise it is stored unchanged. -/
def SuiAddress.ofIdentifier (identifier : List Char) : SuiAddress :=
  if identifier.length = SUI_ADDRESS_STRING_LEN then
    ⟨Char.ofNat 48 :: Char.ofNat 120 :: identifier⟩
  else ⟨identifier⟩

/-- `SuiAddress.from_bytes`: hash `in_bytes[0:33]` when the first byte is
zero and `in_bytes[0:34]` otherwise with SHA3-256 (`hashlib.sha3_256`,
passed here as the explicit parameter `sha3_256`), hex-encode the
digest, keep the first 40 characters.  The Python code indexes
`in_bytes[0]`; the modelled domain is nonempty input, on which
`List.headD 0` agrees with that index. -/
def SuiAddress.from_bytes (sha3_256 : List Nat → List Nat) (in_bytes : List Nat) :
    SuiAddress :=
  let digest := if in_bytes.headD 0 = 0 then in_bytes.take 33 else in_bytes.take 34
  let hash_bytes := (hexlify (sha3_256 digest)).take 40
  SuiAddress.ofIdentifier hash_bytes

/-! ## Module-level dispatch functions -/

/-- `keypair_from_keystring`: length precheck raising
`SuiInvalidKeystringLength`, base64 decode, then a `match` on the first
decoded byte: `ED25519` and `SECP256K1` dispatch to the respective
`from_bytes` on the remainder; any other value falls through to
`raise NotImplementedError`. -/
def keypair_from_keystring (keystring : List Char) : Except SuiError SuiKeyPair :=
  if keystring.length ≠ SUI_KEYPAIR_LEN then
    .error (.SuiInvalidKeystringLength keystring.length)
  else
    match b64decode keystring with
    | none => .error .BinasciiError
    | some [] => .error .IndexError
    | some (b0 :: rest) =>
        if b0 = SignatureScheme.ED25519.value then SuiKeyPairED25519.from_bytes rest
        else if b0 = SignatureScheme.SECP256K1.value then
          SuiKeyPairSECP256K1.from_bytes rest
        else .error .NotImplementedError

/-- `address_from_keystring`: first validates the string parses into a
key pair via `keypair_from_keystring` (any failure propagates), then
derives the address from the full decoded byte sequence. -/
def address_from_keystring (sha3_256 : List Nat → List Nat) (indata : List Char) :
    Except SuiError SuiAddress :=
  match keypair_from_keystring indata with
  | .error e => .error e
  | .ok _kp =>
      match b64decode indata with
      | some bs => .ok (SuiAddress.from_bytes sha3_256 bs)
      | none => .error .BinasciiError

/-! ## Well-formedness

A key pair as actually produced by the constructors: keys tagged with
the pair's scheme, byte lengths as mandated by the scheme, and every
element an actual byte (below 256, as Python `bytes` guarantees). -/

/-- Mandated public-key byte length per scheme. -/
def SignatureScheme.pubLen : SignatureScheme → Nat
  | .ED25519 => ED25519_PUBLICKEY_BYTES_LEN
  | .SECP256K1 => SECP256K1_PUBLICKEY_BYTES_LEN

/-- Mandated private-key byte length per scheme. -/
def SignatureScheme.privLen : SignatureScheme → Nat
  | .ED25519 => ED25519_PRIVATEKEY_BYTES_LEN
  | .SECP256K1 => SECP256K1_PRIVATEKEY_BYTES_LEN

/-- A well-formed key pair: the invariant holding of every key pair the
constructors can produce from Python `bytes`. -/
def SuiKeyPair.WellFormed (kp : SuiKeyPair) : Prop :=
  kp.public_key.scheme = kp.scheme ∧
  kp.private_key.scheme = kp.scheme ∧
  kp.public_key.key_bytes.length = kp.scheme.pubLen ∧
  kp.private_key.key_bytes.length = kp.scheme.privLen ∧
  (∀ x ∈ kp.public_key.key_bytes, x < 256) ∧
  (∀ x ∈ kp.private_key.key_bytes, x < 256)

instance (kp : SuiKeyPair) : Decidable kp.WellFormed := by
  unfold SuiKeyPair.WellFormed
  infer_instance

/-- The address-derivation algorithm as the spec words it (section 4.4):
"if the first byte is 0x00, hash bytes [0:33]; otherwise hash bytes
[0:34]. Feed that window into SHA3-256. Take the hex encoding of the
digest and truncate to the first 40 hex characters." Stated separately
from `SuiAddress.from_bytes` so the source derivation can be compared
against the spec's wording. -/
def specDeriveAddress (sha3_256 : List Nat → List Nat) (pubkey_bytes : List Nat) :
    List Char :=
  let window :=
    if pubkey_bytes.headD 0 = 0 then pubkey_bytes.take 33 else pubkey_bytes.take 34
  ((hexlify (sha3_256 window)).take 40)

/-- A lowercase hexadecimal digit: `0`..`9` or `a`..`f`. -/
def isLowerHexDigit (c : Char) : Prop :=
  (48 ≤ c.toNat ∧ c.toNat ≤ 57) ∨ (97 ≤ c.toNat ∧ c.toNat ≤ 102)

instance (c : Char) : Decidable (isLowerHexDigit c) := by
  unfold isLowerHexDigit
  infer_instance

/-! ## Base64 codec lemmas -/

/-- Decoding inverts the alphabet map on indices 0..63. -/
theorem b64DecVal_b64EncChar : ∀ n < 64, b64DecVal (b64EncChar n) = some n := by
  decide

/-- No alphabet character is the padding character `=` (code 61). -/
theorem b64EncChar_toNat_ne_61 : ∀ n < 64, (b64EncChar n).toNat ≠ 61 := by
  decide

/-- The padding character's code, evaluated. -/
theorem charOfNat61_toNat : (Char.ofNat 61).toNat = 61 := by
  decide

/-- Round trip: decoding an encoding of actual bytes returns exactly the
input bytes. -/
theorem b64decode_b64encode :
    ∀ l : List Nat, (∀ x ∈ l, x < 256) → b64decode (b64encode l) = some l
  | [], _ => rfl
  | [a], h => by
      have ha : a < 256 := h a (by simp)
      simp only [b64encode, b64decode,
        b64DecVal_b64EncChar (a / 4) (by omega),
        b64DecVal_b64EncChar (a % 4 * 16) (by omega), charOfNat61_toNat]
      rw [if_pos ⟨trivial, trivial, trivial⟩]
      simp only [Option.some.injEq, List.cons.injEq, and_true]
      omega
  | [a, b], h => by
      have ha : a < 256 := h a (by simp)
      have hb : b < 256 := h b (by simp)
      simp only [b64encode, b64decode,
        b64DecVal_b64EncChar (a / 4) (by omega),
        b64DecVal_b64EncChar (a % 4 * 16 + b / 16) (by omega),
        b64DecVal_b64EncChar (b % 16 * 4) (by omega), charOfNat61_toNat]
      rw [if_neg (fun hcon => b64EncChar_toNat_ne_61 (b % 16 * 4) (by omega) hcon.1)]
      rw [if_pos ⟨trivial, trivial⟩]
      simp only [Option.some.injEq, List.cons.injEq, and_true]
      omega
  | a :: b :: c :: rest, h => by
      have ha : a < 256 := h a (by simp)
      have hb : b < 256 := h b (by simp)
      have hc : c < 256 := h c (by simp)
      have ih := b64decode_b64encode rest (fun x hx => h x (by simp [hx]))
      simp only [b64encode, b64decode,
        b64DecVal_b64EncChar (a / 4) (by omega),
        b64DecVal_b64EncChar (a % 4 * 16 + b / 16) (by omega),
        b64DecVal_b64EncChar (b % 16 * 4 + c / 64) (by omega),
        b64DecVal_b64EncChar (c % 64) (by omega)]
      rw [if_neg (fun hcon => b64EncChar_toNat_ne_61 (b % 16 * 4 + c / 64) (by omega) hcon.1)]
      rw [if_neg (fun hcon => b64EncChar_toNat_ne_61 (c % 64) (by omega) hcon.1)]
      rw [ih]
      simp only [Option.map_some', Option.some.injEq, List.cons.injEq, and_true]
      refine ⟨by omega, by omega, by omega⟩

/-- The length of a base64 encoding: four characters for every started
group of three input bytes. -/
theorem b64encode_length :
    ∀ l : List Nat, (b64encode l).length = (l.length + 2) / 3 * 4
  | [] => rfl
  | [_] => by simp [b64encode]
  | [_, _] => by simp [b64encode]
  | _ :: _ :: _ :: rest => by
      simp only [b64encode, List.length_cons, b64encode_length rest]
      omega

/-! ## Hex encoding lemmas -/

/-- Each digit of a nibble is a lowercase hex character. -/
theorem hexDigit_lower_hex : ∀ n < 16, isLowerHexDigit (hexDigit n) := by
  decide

/-- `hexlify` produces two characters per byte. -/
theorem hexlify_length : ∀ l : List Nat, (hexlify l).length = 2 * l.length
  | [] => rfl
  | a :: t => by
      have ih := hexlify_length t
      simp only [hexlify, List.flatMap_cons, List.length_append, List.length_cons,
        List.length_nil] at ih ⊢
      omega

/-- Every character of the hex encoding of actual bytes is a lowercase
hex character. -/
theorem hexlify_mem_hex (l : List Nat) (hl : ∀ x ∈ l, x < 256) :
    ∀ c ∈ hexlify l, isLowerHexDigit c := by
  intro c hc
  unfold hexlify at hc
  rw [List.mem_flatMap] at hc
  obtain ⟨x, hx, hcx⟩ := hc
  have hx256 := hl x hx
  simp only [List.mem_cons, List.not_mem_nil, or_false] at hcx
  rcases hcx with rfl | rfl
  · exact hexDigit_lower_hex (x / 16) (by omega)
  · exact hexDigit_lower_hex (x % 16) (by omega)

/-! ## Key-pair serialization lemmas -/

/-- For a well-formed key pair the digest window of its serialized form
is exactly the tag byte followed by the public-key bytes; the
private-key bytes are never reached (window of 33 bytes for the
zero-valued Ed25519 tag, 34 bytes for the Secp256k1 tag). -/
theorem to_bytes_window (kp : SuiKeyPair) (h : kp.WellFormed) :
    (if kp.to_bytes.headD 0 = 0 then kp.to_bytes.take 33 else kp.to_bytes.take 34) =
      kp.scheme.value :: kp.public_key.key_bytes := by
  obtain ⟨s, ⟨ps, pb⟩, ⟨qs, qb⟩⟩ := kp
  obtain ⟨-, -, h3, -, -, -⟩ := h
  cases s
  case ED25519 =>
    have h3' : pb.length = 32 := h3
    show (if (0 : Nat) = 0 then List.take 33 ((0 : Nat) :: pb ++ qb)
        else List.take 34 ((0 : Nat) :: pb ++ qb)) = (0 : Nat) :: pb
    rw [if_pos rfl]
    rw [show (0 : Nat) :: pb ++ qb = ((0 : Nat) :: pb) ++ qb from rfl]
    exact List.take_left' (by simp [h3'])
  case SECP256K1 =>
    have h3' : pb.length = 33 := h3
    show (if (1 : Nat) = 0 then List.take 33 ((1 : Nat) :: pb ++ qb)
        else List.take 34 ((1 : Nat) :: pb ++ qb)) = (1 : Nat) :: pb
    rw [if_neg (by omega)]
    rw [show (1 : Nat) :: pb ++ qb = ((1 : Nat) :: pb) ++ qb from rfl]
    exact List.take_left' (by simp [h3'])

/-- If `keypair_from_keystring` returns a key pair, the base64 decode of
the string succeeded. -/
theorem keypair_from_keystring_ok_decode (s : List Char) (kp : SuiKeyPair)
    (h : keypair_from_keystring s = .ok kp) : ∃ bs, b64decode s = some bs := by
  unfold keypair_from_keystring at h
  split at h
  · simp at h
  · split at h
    · simp at h
    · simp at h
    · rename_i b0 rest heq
      exact ⟨b0 :: rest, heq⟩

/-- Reconstructing an Ed25519 key pair from its tag-stripped payload
`public ++ private` succeeds and rebuilds the same fields. -/
theorem ed25519_from_bytes_payload (ps qs : SignatureScheme) (pb qb : List Nat)
    (hps : ps = .ED25519) (hqs : qs = .ED25519)
    (hpb : pb.length = 32) (hqb : qb.length = 32) :
    SuiKeyPairED25519.from_bytes (pb ++ qb) =
      .ok ⟨.ED25519, ⟨ps, pb⟩, ⟨qs, qb⟩⟩ := by
  subst hps
  subst hqs
  unfold SuiKeyPairED25519.from_bytes
  rw [if_neg (by simp [ED25519_KEYPAIR_BYTES_LEN, hpb, hqb])]
  rw [List.take_left' hpb, List.drop_left' hpb]
  unfold SuiKeyPairED25519.mk SuiPrivateKeyED25519.mk SuiPublicKeyED25519.mk
  rw [if_neg (by simp [ED25519_PRIVATEKEY_BYTES_LEN, hqb])]
  rw [if_neg (by simp [ED25519_PUBLICKEY_BYTES_LEN, hpb])]

/-- Reconstructing a Secp256k1 key pair from its tag-stripped payload
`public ++ private` succeeds and rebuilds the same fields. -/
theorem secp256k1_from_bytes_payload (ps qs : SignatureScheme) (pb qb : List Nat)
    (hps : ps = .SECP256K1) (hqs : qs = .SECP256K1)
    (hpb : pb.length = 33) (hqb : qb.length = 32) :
    SuiKeyPairSECP256K1.from_bytes (pb ++ qb) =
      .ok ⟨.SECP256K1, ⟨ps, pb⟩, ⟨qs, qb⟩⟩ := by
  subst hps
  subst hqs
  unfold SuiKeyPairSECP256K1.from_bytes
  rw [if_neg (by simp [SECP256K1_KEYPAIR_BYTES_LEN, hpb, hqb])]
  rw [List.take_left' hpb, List.drop_left' hpb]
  unfold SuiKeyPairSECP256K1.mk SuiPublicKeySECP256K1.mk SuiPrivateKeySECP256K1.mk
  rw [if_neg (by simp [SECP256K1_PUBLICKEY_BYTES_LEN, hpb])]
  rw [if_neg (by simp [SECP256K1_PRIVATEKEY_BYTES_LEN, hqb])]

/-- A well-formed key pair serializes to `1 + pubLen + privLen` bytes. -/
theorem to_bytes_length (kp : SuiKeyPair) (h : kp.WellFormed) :
    kp.to_bytes.length = 1 + kp.scheme.pubLen + kp.scheme.privLen := by
  obtain ⟨s, ⟨ps, pb⟩, ⟨qs, qb⟩⟩ := kp
  obtain ⟨-, -, h3, h4, -, -⟩ := h
  have h3' : pb.length = s.pubLen := h3
  have h4' : qb.length = s.privLen := h4
  simp only [SuiKeyPair.to_bytes, List.length_cons, List.length_append]
  omega

/-- Serialized bytes of a well-formed key pair are actual bytes. -/
theorem to_bytes_bounded (kp : SuiKeyPair) (h : kp.WellFormed) :
    ∀ x ∈ kp.to_bytes, x < 256 := by
  obtain ⟨s, ⟨ps, pb⟩, ⟨qs, qb⟩⟩ := kp
  obtain ⟨-, -, -, -, h5, h6⟩ := h
  have h5' : ∀ x ∈ pb, x < 256 := h5
  have h6' : ∀ x ∈ qb, x < 256 := h6
  intro x hx
  simp only [SuiKeyPair.to_bytes, List.mem_cons, List.mem_append] at hx
  rcases hx with (rfl | hx) | hx
  · cases s <;> decide
  · exact h5' x hx
  · exact h6' x hx

/-- The Ed25519 base64 round trip does hold: `from_b64` applied to the
base64 serialization of a well-formed Ed25519 key pair returns an equal
key pair. -/
theorem ed25519_from_b64_to_b64 (kp : SuiKeyPair) (h : kp.WellFormed)
    (hs : kp.scheme = .ED25519) :
    SuiKeyPairED25519.from_b64 kp.to_b64 = .ok kp := by
  have hlen65 : kp.to_bytes.length = 65 := by
    rw [to_bytes_length kp h, hs]
    rfl
  have hlen88 : kp.to_b64.length = SUI_KEYPAIR_LEN := by
    show (b64encode kp.to_bytes).length = SUI_KEYPAIR_LEN
    rw [b64encode_length, hlen65]
    decide
  have hdec : b64decode kp.to_b64 = some kp.to_bytes :=
    b64decode_b64encode kp.to_bytes (to_bytes_bounded kp h)
  have hsplit : kp.to_bytes =
      0 :: (kp.public_key.key_bytes ++ kp.private_key.key_bytes) := by
    unfold SuiKeyPair.to_bytes
    rw [hs]
    simp [SignatureScheme.value, List.cons_append]
  rw [hsplit] at hdec
  unfold SuiKeyPairED25519.from_b64
  rw [if_neg (by simp [hlen88]), hdec]
  show (if (0 : Nat) = SignatureScheme.ED25519.value then
      SuiKeyPairED25519.from_bytes
        (kp.public_key.key_bytes ++ kp.private_key.key_bytes)
    else .error (.SuiInvalidKeyPair "Scheme not ED25519")) = .ok kp
  rw [if_pos (show (0 : Nat) = SignatureScheme.ED25519.value from rfl)]
  obtain ⟨s, ⟨ps, pb⟩, ⟨qs, qb⟩⟩ := kp
  obtain ⟨hh1, hh2, hh3, hh4, -, -⟩ := h
  have hs' : s = .ED25519 := hs
  subst hs'
  exact ed25519_from_bytes_payload ps qs pb qb hh1 hh2 hh3 hh4

/-- C1 counterexample: a well-formed key pair of either scheme fed back
through the same variant's `from_bytes` on the untruncated output of
`to_bytes` is rejected with a length error — the claimed round trip
`from_bytes(kp.to_bytes())` fails, because `to_bytes` includes the tag
byte and `from_bytes` expects the tag-stripped payload. -/
theorem from_bytes_of_to_bytes_is_length_error :
    SuiKeyPair.WellFormed ⟨.ED25519, ⟨.ED25519, List.replicate 32 1⟩,
        ⟨.ED25519, List.replicate 32 2⟩⟩ ∧
    SuiKeyPairED25519.from_bytes
        (SuiKeyPair.to_bytes ⟨.ED25519, ⟨.ED25519, List.replicate 32 1⟩,
          ⟨.ED25519, List.replicate 32 2⟩⟩) =
      .error (.SuiInvalidKeyPair "Expect bytes len of 64") ∧
    SuiKeyPair.WellFormed ⟨.SECP256K1, ⟨.SECP256K1, List.replicate 33 1⟩,
        ⟨.SECP256K1, List.replicate 32 2⟩⟩ ∧
    SuiKeyPairSECP256K1.from_bytes
        (SuiKeyPair.to_bytes ⟨.SECP256K1, ⟨.SECP256K1, List.replicate 33 1⟩,
          ⟨.SECP256K1, List.replicate 32 2⟩⟩) =
      .error (.SuiInvalidKeyPair "Expect bytes len of 65") :=
  ⟨by decide, rfl, by decide, rfl⟩

/-- C1 (amended): for every scheme and well-formed key pair, `from_bytes`
applied to `to_bytes` with the leading tag byte removed succeeds and
returns an equal key pair; on the untruncated `to_bytes` output it
fails with a length error. -/
theorem from_bytes_roundtrip_tag_stripped (kp : SuiKeyPair) (h : kp.WellFormed) :
    (kp.scheme = .ED25519 →
      SuiKeyPairED25519.from_bytes (kp.to_bytes.drop 1) = .ok kp ∧
      SuiKeyPairED25519.from_bytes kp.to_bytes =
        .error (.SuiInvalidKeyPair "Expect bytes len of 64")) ∧
    (kp.scheme = .SECP256K1 →
      SuiKeyPairSECP256K1.from_bytes (kp.to_bytes.drop 1) = .ok kp ∧
      SuiKeyPairSECP256K1.from_bytes kp.to_bytes =
        .error (.SuiInvalidKeyPair "Expect bytes len of 65")) := by
  have hlen := to_bytes_length kp h
  constructor
  · intro hs
    constructor
    · obtain ⟨s, ⟨ps, pb⟩, ⟨qs, qb⟩⟩ := kp
      obtain ⟨hh1, hh2, hh3, hh4, -, -⟩ := h
      have hs' : s = .ED25519 := hs
      subst hs'
      exact ed25519_from_bytes_payload ps qs pb qb hh1 hh2 hh3 hh4
    · unfold SuiKeyPairED25519.from_bytes
      rw [if_pos (by rw [hlen, hs]; decide)]
  · intro hs
    constructor
    · obtain ⟨s, ⟨ps, pb⟩, ⟨qs, qb⟩⟩ := kp
      obtain ⟨hh1, hh2, hh3, hh4, -, -⟩ := h
      have hs' : s = .SECP256K1 := hs
      subst hs'
      exact secp256k1_from_bytes_payload ps qs pb qb hh1 hh2 hh3 hh4
    · unfold SuiKeyPairSECP256K1.from_bytes
      rw [if_pos (by rw [hlen, hs]; decide)]

/-- Witness for C1's amended theorem at concrete key pairs of both
schemes. -/
theorem from_bytes_roundtrip_tag_stripped_witness :
    SuiKeyPairED25519.from_bytes
        ((SuiKeyPair.to_bytes ⟨.ED25519, ⟨.ED25519, List.replicate 32 1⟩,
          ⟨.ED25519, List.replicate 32 2⟩⟩).drop 1) =
      .ok ⟨.ED25519, ⟨.ED25519, List.replicate 32 1⟩, ⟨.ED25519, List.replicate 32 2⟩⟩ ∧
    SuiKeyPairSECP256K1.from_bytes
        ((SuiKeyPair.to_bytes ⟨.SECP256K1, ⟨.SECP256K1, List.replicate 33 1⟩,
          ⟨.SECP256K1, List.replicate 32 2⟩⟩).drop 1) =
      .ok ⟨.SECP256K1, ⟨.SECP256K1, List.replicate 33 1⟩,
        ⟨.SECP256K1, List.replicate 32 2⟩⟩ :=
  ⟨((from_bytes_roundtrip_tag_stripped _ (by decide)).1 rfl).1,
   ((from_bytes_roundtrip_tag_stripped _ (by decide)).2 rfl).1⟩

/-- C2: the Secp256k1 base64 round trip fails on the code — for a
well-formed Secp256k1 key pair, `from_b64(to_b64())` raises
`SuiInvalidKeyPair` instead of returning the key pair, because
`SuiKeyPairSECP256K1.from_b64` hands the 65-byte remainder to
`SuiKeyPairED25519.from_bytes` (source line 192), which demands 64
bytes.  (The Ed25519 side of the round trip is proved in
`ed25519_from_b64_to_b64`.) -/
theorem secp256k1_from_b64_roundtrip_fails :
    SuiKeyPair.WellFormed ⟨.SECP256K1, ⟨.SECP256K1, List.replicate 33 7⟩,
        ⟨.SECP256K1, List.replicate 32 9⟩⟩ ∧
    SuiKeyPairSECP256K1.from_b64
        (SuiKeyPair.to_b64 ⟨.SECP256K1, ⟨.SECP256K1, List.replicate 33 7⟩,
          ⟨.SECP256K1, List.replicate 32 9⟩⟩) =
      .error (.SuiInvalidKeyPair "Expect bytes len of 64") :=
  ⟨by decide, by rfl⟩

/-- C3 counterexample: an 88-character encoded string whose first decoded
byte is tag 0 but whose remaining payload is 65 bytes long is rejected
with a length error instead of yielding an Ed25519 key pair, so tag 0
does not *always* yield a key pair on correct-total-length input. -/
theorem keystring_tag0_wrong_payload_len_error :
    (b64encode (0 :: List.replicate 65 5)).length = SUI_KEYPAIR_LEN ∧
    b64decode (b64encode (0 :: List.replicate 65 5)) =
      some (0 :: List.replicate 65 5) ∧
    keypair_from_keystring (b64encode (0 :: List.replicate 65 5)) =
      .error (.SuiInvalidKeyPair "Expect bytes len of 64") :=
  ⟨rfl, by rfl, by rfl⟩

/-- C3 (amended): for an encoded string of the correct total length
whose decoded payload after the tag also has the scheme's key-pair byte
length, tag 0 yields an Ed25519 key pair and tag 1 a Secp256k1 key
pair; any tag outside {0, 1} fails with `NotImplementedError` (the
unsupported-scheme error) regardless of the remainder. -/
theorem keystring_tag_dispatch (t : Nat) (rest : List Nat)
    (hbytes : ∀ x ∈ t :: rest, x < 256)
    (hlen : (b64encode (t :: rest)).length = SUI_KEYPAIR_LEN) :
    (t = 0 → rest.length = ED25519_KEYPAIR_BYTES_LEN →
      keypair_from_keystring (b64encode (t :: rest)) =
        .ok ⟨.ED25519, ⟨.ED25519, rest.take 32⟩, ⟨.ED25519, rest.drop 32⟩⟩) ∧
    (t = 1 → rest.length = SECP256K1_KEYPAIR_BYTES_LEN →
      keypair_from_keystring (b64encode (t :: rest)) =
        .ok ⟨.SECP256K1, ⟨.SECP256K1, rest.take 33⟩, ⟨.SECP256K1, rest.drop 33⟩⟩) ∧
    (2 ≤ t →
      keypair_from_keystring (b64encode (t :: rest)) =
        .error .NotImplementedError) := by
  have hdec : b64decode (b64encode (t :: rest)) = some (t :: rest) :=
    b64decode_b64encode (t :: rest) hbytes
  refine ⟨?_, ?_, ?_⟩
  · intro ht hrl
    subst ht
    have hrl' : rest.length = 64 := hrl
    unfold keypair_from_keystring
    rw [if_neg (by simp [hlen]), hdec]
    show (if (0 : Nat) = SignatureScheme.ED25519.value then
        SuiKeyPairED25519.from_bytes rest
      else if (0 : Nat) = SignatureScheme.SECP256K1.value then
        SuiKeyPairSECP256K1.from_bytes rest
      else .error .NotImplementedError) = _
    rw [if_pos (show (0 : Nat) = SignatureScheme.ED25519.value from rfl)]
    have hp := ed25519_from_bytes_payload .ED25519 .ED25519 (rest.take 32)
      (rest.drop 32) rfl rfl (by rw [List.length_take]; omega)
      (by rw [List.length_drop]; omega)
    rw [List.take_append_drop] at hp
    exact hp
  · intro ht hrl
    subst ht
    have hrl' : rest.length = 65 := hrl
    unfold keypair_from_keystring
    rw [if_neg (by simp [hlen]), hdec]
    show (if (1 : Nat) = SignatureScheme.ED25519.value then
        SuiKeyPairED25519.from_bytes rest
      else if (1 : Nat) = SignatureScheme.SECP256K1.value then
        SuiKeyPairSECP256K1.from_bytes rest
      else .error .NotImplementedError) = _
    rw [if_neg (by decide),
      if_pos (show (1 : Nat) = SignatureScheme.SECP256K1.value from rfl)]
    have hp := secp256k1_from_bytes_payload .SECP256K1 .SECP256K1 (rest.take 33)
      (rest.drop 33) rfl rfl (by rw [List.length_take]; omega)
      (by rw [List.length_drop]; omega)
    rw [List.take_append_drop] at hp
    exact hp
  · intro ht
    unfold keypair_from_keystring
    rw [if_neg (by simp [hlen]), hdec]
    show (if t = SignatureScheme.ED25519.value then
        SuiKeyPairED25519.from_bytes rest
      else if t = SignatureScheme.SECP256K1.value then
        SuiKeyPairSECP256K1.from_bytes rest
      else .error .NotImplementedError) = .error .NotImplementedError
    rw [if_neg (by simp only [SignatureScheme.value]; omega),
      if_neg (by simp only [SignatureScheme.value]; omega)]

/-- Witness for C3's amended theorem: all three tag arms exercised at
concrete encoded strings. -/
theorem keystring_tag_dispatch_witness :
    keypair_from_keystring (b64encode (0 :: List.replicate 64 7)) =
      .ok ⟨.ED25519, ⟨.ED25519, (List.replicate 64 7).take 32⟩,
        ⟨.ED25519, (List.replicate 64 7).drop 32⟩⟩ ∧
    keypair_from_keystring (b64encode (1 :: List.replicate 65 7)) =
      .ok ⟨.SECP256K1, ⟨.SECP256K1, (List.replicate 65 7).take 33⟩,
        ⟨.SECP256K1, (List.replicate 65 7).drop 33⟩⟩ ∧
    keypair_from_keystring (b64encode (2 :: List.replicate 65 7)) =
      .error .NotImplementedError :=
  ⟨(keystring_tag_dispatch 0 (List.replicate 64 7) (by decide) (by rfl)).1 rfl rfl,
   (keystring_tag_dispatch 1 (List.replicate 65 7) (by decide) (by rfl)).2.1 rfl rfl,
   (keystring_tag_dispatch 2 (List.replicate 65 7) (by decide) (by rfl)).2.2 (by decide)⟩

/-- C6: constructing any of the four key classes from a byte sequence
whose length differs from the scheme's mandated length fails with a
length error and produces no key object. -/
theorem key_construction_length_error (b : List Nat) :
    (b.length ≠ ED25519_PUBLICKEY_BYTES_LEN →
      SuiPublicKeyED25519.mk b =
        .error (.SuiInvalidKeyPair "Public Key expects 32 bytes")) ∧
    (b.length ≠ ED25519_PRIVATEKEY_BYTES_LEN →
      SuiPrivateKeyED25519.mk b =
        .error (.SuiInvalidKeyPair "Private Key expects 32 bytes")) ∧
    (b.length ≠ SECP256K1_PUBLICKEY_BYTES_LEN →
      SuiPublicKeySECP256K1.mk b =
        .error (.SuiInvalidKeyPair "Public Key expects 33 bytes")) ∧
    (b.length ≠ SECP256K1_PRIVATEKEY_BYTES_LEN →
      SuiPrivateKeySECP256K1.mk b =
        .error (.SuiInvalidKeyPair "Private Key expects 32 bytes")) := by
  refine ⟨fun h => ?_, fun h => ?_, fun h => ?_, fun h => ?_⟩
  · unfold SuiPublicKeyED25519.mk
    rw [if_pos h]
  · unfold SuiPrivateKeyED25519.mk
    rw [if_pos h]
  · unfold SuiPublicKeySECP256K1.mk
    rw [if_pos h]
  · unfold SuiPrivateKeySECP256K1.mk
    rw [if_pos h]

/-- Witness for C6 at the off-by-one length 31 (31 differs from each
mandated length 32, 32, 33, 32). -/
theorem key_construction_length_error_witness :
    SuiPublicKeyED25519.mk (List.replicate 31 0) =
      .error (.SuiInvalidKeyPair "Public Key expects 32 bytes") ∧
    SuiPrivateKeyED25519.mk (List.replicate 31 0) =
      .error (.SuiInvalidKeyPair "Private Key expects 32 bytes") ∧
    SuiPublicKeySECP256K1.mk (List.replicate 31 0) =
      .error (.SuiInvalidKeyPair "Public Key expects 33 bytes") ∧
    SuiPrivateKeySECP256K1.mk (List.replicate 31 0) =
      .error (.SuiInvalidKeyPair "Private Key expects 32 bytes") :=
  ⟨(key_construction_length_error (List.replicate 31 0)).1 (by decide),
   (key_construction_length_error (List.replicate 31 0)).2.1 (by decide),
   (key_construction_length_error (List.replicate 31 0)).2.2.1 (by decide),
   (key_construction_length_error (List.replicate 31 0)).2.2.2 (by decide)⟩

/-- C7: on any input string whose length differs from `SUI_KEYPAIR_LEN`,
both variants' `from_b64` and `keypair_from_keystring` return their
length error.  The equations hold for arbitrary strings — decodable or
not — so the result is fixed before any base64 decoding. -/
theorem from_b64_length_precheck (s : List Char) (h : s.length ≠ SUI_KEYPAIR_LEN) :
    SuiKeyPairED25519.from_b64 s =
      .error (.SuiInvalidKeyPair "Expect str len of 88") ∧
    SuiKeyPairSECP256K1.from_b64 s =
      .error (.SuiInvalidKeyPair "Expect str len of 88") ∧
    keypair_from_keystring s = .error (.SuiInvalidKeystringLength s.length) := by
  refine ⟨?_, ?_, ?_⟩
  · unfold SuiKeyPairED25519.from_b64
    rw [if_pos h]
  · unfold SuiKeyPairSECP256K1.from_b64
    rw [if_pos h]
  · unfold keypair_from_keystring
    rw [if_pos h]

/-- Witness for C7 at the empty string, which is not even decodable
input of the right shape. -/
theorem from_b64_length_precheck_witness :
    SuiKeyPairED25519.from_b64 [] =
      .error (.SuiInvalidKeyPair "Expect str len of 88") ∧
    SuiKeyPairSECP256K1.from_b64 [] =
      .error (.SuiInvalidKeyPair "Expect str len of 88") ∧
    keypair_from_keystring [] = .error (.SuiInvalidKeystringLength 0) :=
  from_b64_length_precheck [] (by decide)

/-- C4: for input of length at least 34, address derivation hashes
exactly the first 33 bytes when the leading byte is zero and exactly
the first 34 bytes otherwise, and the resulting address identifier is
the first 40 characters of the digest's hex encoding — equivalently,
the source derivation coincides with the spec-worded
`specDeriveAddress`. -/
theorem address_digest_window (sha3_256 : List Nat → List Nat) (b : List Nat)
    (hb : 34 ≤ b.length) :
    (b.headD 0 = 0 → (b.take 33).length = 33 ∧
      SuiAddress.from_bytes sha3_256 b =
        SuiAddress.ofIdentifier ((hexlify (sha3_256 (b.take 33))).take 40)) ∧
    (b.headD 0 ≠ 0 → (b.take 34).length = 34 ∧
      SuiAddress.from_bytes sha3_256 b =
        SuiAddress.ofIdentifier ((hexlify (sha3_256 (b.take 34))).take 40)) ∧
    SuiAddress.from_bytes sha3_256 b =
      SuiAddress.ofIdentifier (specDeriveAddress sha3_256 b) := by
  refine ⟨fun h0 => ⟨by rw [List.length_take]; omega, ?_⟩,
    fun h0 => ⟨by rw [List.length_take]; omega, ?_⟩, ?_⟩
  · simp only [SuiAddress.from_bytes]
    rw [if_pos h0]
  · simp only [SuiAddress.from_bytes]
    rw [if_neg h0]
  · rfl

/-- Witness for C4 at a zero-leading and a nonzero-leading 34-byte
input. -/
theorem address_digest_window_witness :
    ((List.replicate 34 0).take 33).length = 33 ∧
    SuiAddress.from_bytes (fun _ => []) (List.replicate 34 0) =
      SuiAddress.ofIdentifier ((hexlify []).take 40) ∧
    ((List.replicate 34 1).take 34).length = 34 ∧
    SuiAddress.from_bytes (fun _ => []) (List.replicate 34 1) =
      SuiAddress.ofIdentifier ((hexlify []).take 40) :=
  ⟨((address_digest_window (fun _ => []) (List.replicate 34 0) (by decide)).1
      (by decide)).1,
   ((address_digest_window (fun _ => []) (List.replicate 34 0) (by decide)).1
      (by decide)).2,
   ((address_digest_window (fun _ => []) (List.replicate 34 1) (by decide)).2.1
      (by decide)).1,
   ((address_digest_window (fun _ => []) (List.replicate 34 1) (by decide)).2.1
      (by decide)).2⟩

/-- C5: for any valid-length input, the identifier produced by address
derivation is exactly 40 lowercase hex characters; the stored address is
that identifier behind the "0x" prefix that `SuiAddress.__init__`
attaches to strings of exactly `SUI_ADDRESS_STRING_LEN` characters.
The hypotheses on `sha3_256` state that SHA3-256 returns 32 bytes. -/
theorem address_forty_hex_chars (sha3_256 : List Nat → List Nat)
    (hlen : ∀ w, (sha3_256 w).length = 32)
    (hbyte : ∀ w, ∀ x ∈ sha3_256 w, x < 256)
    (b : List Nat) (hb : 34 ≤ b.length) :
    ∃ t, (SuiAddress.from_bytes sha3_256 b).address =
        Char.ofNat 48 :: Char.ofNat 120 :: t ∧
      t.length = 40 ∧ ∀ c ∈ t, isLowerHexDigit c := by
  refine ⟨(hexlify (sha3_256 (if b.headD 0 = 0 then b.take 33 else b.take 34))).take 40,
    ?_, ?_, ?_⟩
  · have h40 : ((hexlify (sha3_256
        (if b.headD 0 = 0 then b.take 33 else b.take 34))).take 40).length =
          SUI_ADDRESS_STRING_LEN := by
      rw [List.length_take, hexlify_length, hlen]
      decide
    simp only [SuiAddress.from_bytes, SuiAddress.ofIdentifier]
    rw [if_pos h40]
  · rw [List.length_take, hexlify_length, hlen]
    decide
  · intro c hc
    exact hexlify_mem_hex _ (hbyte _) c (List.take_subset _ _ hc)

/-- Witness for C5 at a concrete 34-byte input and the constant
32-zero-byte digest function. -/
theorem address_forty_hex_chars_witness :
    ∃ t, (SuiAddress.from_bytes (fun _ => List.replicate 32 0)
        (List.replicate 34 2)).address = Char.ofNat 48 :: Char.ofNat 120 :: t ∧
      t.length = 40 ∧ ∀ c ∈ t, isLowerHexDigit c :=
  address_forty_hex_chars (fun _ => List.replicate 32 0) (fun _ => rfl)
    (fun _ x hx => by rw [List.eq_of_mem_replicate hx]; decide)
    (List.replicate 34 2) (by decide)

/-- C8: `address_from_keystring` fails exactly when
`keypair_from_keystring` fails, with the same error (the key-pair parse
is performed first, so no hashing happens on malformed input), and on
success it derives the address from the full decoded scheme-tagged byte
sequence. -/
theorem address_from_keystring_validates_first (sha3_256 : List Nat → List Nat)
    (s : List Char) :
    (∀ e, address_from_keystring sha3_256 s = .error e ↔
      keypair_from_keystring s = .error e) ∧
    (∀ kp, keypair_from_keystring s = .ok kp →
      ∃ bs, b64decode s = some bs ∧
        address_from_keystring sha3_256 s =
          .ok (SuiAddress.from_bytes sha3_256 bs)) := by
  constructor
  · intro e
    unfold address_from_keystring
    cases hk : keypair_from_keystring s with
    | error e2 => simp
    | ok kp =>
        obtain ⟨bs, hbs⟩ := keypair_from_keystring_ok_decode s kp hk
        rw [hbs]
        simp
  · intro kp hk
    obtain ⟨bs, hbs⟩ := keypair_from_keystring_ok_decode s kp hk
    refine ⟨bs, hbs, ?_⟩
    unfold address_from_keystring
    rw [hk, hbs]

/-- Witness for C8 at a concrete valid Ed25519 keystring. -/
theorem address_from_keystring_validates_first_witness :
    ∃ bs, b64decode (b64encode (0 :: List.replicate 64 0)) = some bs ∧
      address_from_keystring (fun _ => []) (b64encode (0 :: List.replicate 64 0)) =
        .ok (SuiAddress.from_bytes (fun _ => []) bs) :=
  (address_from_keystring_validates_first (fun _ => []) _).2
    ⟨.ED25519, ⟨.ED25519, (List.replicate 64 0).take 32⟩,
      ⟨.ED25519, (List.replicate 64 0).drop 32⟩⟩ (by rfl)

/-- C9: the derived address depends only on the scheme tag and the
public-key bytes of the serialized pair — two well-formed key pairs of
the same scheme with equal public keys but different private keys get
the identical address, because the digest window never reaches the
private-key bytes. -/
theorem address_independent_of_private_key (sha3_256 : List Nat → List Nat)
    (kp1 kp2 : SuiKeyPair) (h1 : kp1.WellFormed) (h2 : kp2.WellFormed)
    (hs : kp1.scheme = kp2.scheme)
    (hpub : kp1.public_key.key_bytes = kp2.public_key.key_bytes)
    (hpriv : kp1.private_key.key_bytes ≠ kp2.private_key.key_bytes) :
    SuiAddress.from_bytes sha3_256 kp1.to_bytes =
      SuiAddress.from_bytes sha3_256 kp2.to_bytes := by
  simp only [SuiAddress.from_bytes]
  rw [to_bytes_window kp1 h1, to_bytes_window kp2 h2, hs, hpub]

/-- Witness for C9: two Ed25519 key pairs sharing the public key and
differing in the private key derive the same address. -/
theorem address_independent_of_private_key_witness :
    SuiAddress.from_bytes (fun _ => List.replicate 32 0)
        (SuiKeyPair.to_bytes ⟨.ED25519, ⟨.ED25519, List.replicate 32 4⟩,
          ⟨.ED25519, List.replicate 32 5⟩⟩) =
      SuiAddress.from_bytes (fun _ => List.replicate 32 0)
        (SuiKeyPair.to_bytes ⟨.ED25519, ⟨.ED25519, List.replicate 32 4⟩,
          ⟨.ED25519, List.replicate 32 6⟩⟩) :=
  address_independent_of_private_key _ _ _ (by decide) (by decide) rfl rfl
    (by decide)

/-- C10: whenever one of the four key constructors succeeds, the
resulting key's `key_bytes` is exactly the byte sequence supplied at
construction, its `scheme` is exactly the constructor's scheme, and
`to_b64` is a pure function of those stored bytes. -/
theorem key_stores_exact_bytes_and_scheme (b : List Nat) (k : Key) :
    (SuiPublicKeyED25519.mk b = .ok k →
      k.key_bytes = b ∧ k.scheme = .ED25519 ∧ k.to_b64 = b64encode b) ∧
    (SuiPrivateKeyED25519.mk b = .ok k →
      k.key_bytes = b ∧ k.scheme = .ED25519 ∧ k.to_b64 = b64encode b) ∧
    (SuiPublicKeySECP256K1.mk b = .ok k →
      k.key_bytes = b ∧ k.scheme = .SECP256K1 ∧ k.to_b64 = b64encode b) ∧
    (SuiPrivateKeySECP256K1.mk b = .ok k →
      k.key_bytes = b ∧ k.scheme = .SECP256K1 ∧ k.to_b64 = b64encode b) := by
  refine ⟨fun h => ?_, fun h => ?_, fun h => ?_, fun h => ?_⟩
  · unfold SuiPublicKeyED25519.mk at h
    split at h
    · simp at h
    · obtain rfl := Except.ok.inj h
      exact ⟨rfl, rfl, rfl⟩
  · unfold SuiPrivateKeyED25519.mk at h
    split at h
    · simp at h
    · obtain rfl := Except.ok.inj h
      exact ⟨rfl, rfl, rfl⟩
  · unfold SuiPublicKeySECP256K1.mk at h
    split at h
    · simp at h
    · obtain rfl := Except.ok.inj h
      exact ⟨rfl, rfl, rfl⟩
  · unfold SuiPrivateKeySECP256K1.mk at h
    split at h
    · simp at h
    · obtain rfl := Except.ok.inj h
      exact ⟨rfl, rfl, rfl⟩

/-- Witness for C10 at concrete public keys of both schemes. -/
theorem key_stores_exact_bytes_and_scheme_witness :
    ((⟨.ED25519, List.replicate 32 3⟩ : Key).key_bytes = List.replicate 32 3 ∧
      (⟨.ED25519, List.replicate 32 3⟩ : Key).scheme = .ED25519 ∧
      (⟨.ED25519, List.replicate 32 3⟩ : Key).to_b64 =
        b64encode (List.replicate 32 3)) ∧
    ((⟨.SECP256K1, List.replicate 33 3⟩ : Key).key_bytes = List.replicate 33 3 ∧
      (⟨.SECP256K1, List.replicate 33 3⟩ : Key).scheme = .SECP256K1 ∧
      (⟨.SECP256K1, List.replicate 33 3⟩ : Key).to_b64 =
        b64encode (List.replicate 33 3)) :=
  ⟨(key_stores_exact_bytes_and_scheme (List.replicate 32 3)
      ⟨.ED25519, List.replicate 32 3⟩).1 (by rfl),
   (key_stores_exact_bytes_and_scheme (List.replicate 33 3)
      ⟨.SECP256K1, List.replicate 33 3⟩).2.2.1 (by rfl)⟩
